import Mathlib

/-
A shallow embedding of the green-task runtime in src/libstd/rt/task.rs:
the Task aggregate, its constructors, the run lifecycle, the Unwinder,
the Coroutine/StackPool pair and the scheduling-affinity operations.

Conventions of the embedding:
* Fatal runtime aborts (rtabort!, rtassert!, failed Option unwraps) are
  modelled by returning `Except.error e` for a distinguishing `RtAbort` tag;
  a function that in the source cannot abort returns its value directly.
* Opaque external collaborators (LocalHeap, GarbageCollector, StdErrLogger,
  the register Context, cleanup::annihilate) carry no observable state here;
  the side effects of Task::run are recorded in an event trace so that the
  teardown order is observable.
* env::min_stack() (rt/env.rs, external) is threaded as an explicit
  `min_stack` argument.
* The user body passed to Task::run and to the constructors is observable
  only through whether it signals failure, so it is embedded as the boolean
  `body_fails`.
-/

namespace RustRt

/-- A stack segment is a contiguous memory region; only its byte size is
observable in this model. -/
structure StackSegment where
  size : Nat
deriving DecidableEq, Repr

/-- Modelled from the spec: rt/stack.rs is not among the sources; the spec
describes the StackPool as pooling and recycling segments. -/
structure StackPool where
  segments : List StackSegment
deriving DecidableEq, Repr

/-- Helper for take_segment: remove the first recycled segment of at least
the requested size, if any. -/
def take_from (size : Nat) : List StackSegment → Option (StackSegment × List StackSegment)
  | [] => none
  | seg :: rest =>
    if size ≤ seg.size then some (seg, rest)
    else
      match take_from size rest with
      | some (found, restQ) => some (found, seg :: restQ)
      | none => none

/-- Modelled from the spec: take_segment returns a segment of at least the
requested size, preferring a previously recycled one to minimize allocation;
when no pooled segment is large enough, a fresh segment of exactly the
requested size is allocated. -/
def StackPool.take_segment (p : StackPool) (size : Nat) : StackSegment × StackPool :=
  match take_from size p.segments with
  | some (seg, rest) => (seg, { segments := rest })
  | none => ({ size := size }, p)

/-- Modelled from the spec: give_segment returns a segment to the pool for
future reuse. -/
def StackPool.give_segment (p : StackPool) (seg : StackSegment) : StackPool :=
  { segments := seg :: p.segments }

/-- The saved register context is opaque: `empty` is the placeholder built by
Context::empty, `fresh` marks a context built by Context::new over a start
wrapper (the wrapper closure itself has no observable state here). -/
inductive Context
  | empty
  | fresh
deriving DecidableEq, Repr

/-- A coroutine is nothing more than a (register context, stack) pair. -/
structure Coroutine where
  current_stack_segment : StackSegment
  saved_context : Context
deriving DecidableEq, Repr

/-- Coroutine::new obtains a stack segment from the pool sized to the request
or, when unspecified, to env::min_stack() (threaded here as `min_stack`),
and builds a fresh context over the start wrapper. -/
def Coroutine.new (min_stack : Nat) (stack_pool : StackPool) (stack_size : Option Nat) :
    Coroutine × StackPool :=
  let sz := match stack_size with
    | some size => size
    | none => min_stack
  let pr := stack_pool.take_segment sz
  ({ current_stack_segment := pr.1, saved_context := Context.fresh }, pr.2)

/-- Coroutine::empty: a zero-size segment with the placeholder context. -/
def Coroutine.empty : Coroutine :=
  { current_stack_segment := { size := 0 }, saved_context := Context.empty }

/-- Coroutine::recycle returns the stack segment to the pool; the context is
discarded. -/
def Coroutine.recycle (c : Coroutine) (stack_pool : StackPool) : StackPool :=
  stack_pool.give_segment c.current_stack_segment

/-- A handle identifying a specific scheduler; only the sched_id field takes
part in affinity comparisons. -/
structure SchedHandle where
  sched_id : Nat
deriving DecidableEq, Repr

/-- Some tasks have a dedicated home scheduler that they must run on. -/
inductive SchedHome
  | AnySched
  | Sched (handle : SchedHandle)
deriving DecidableEq, Repr

/-- The task-kind tag: a GreenTask carries an optional scheduling affinity,
a SchedTask is the bookkeeping task of the scheduler thread. -/
inductive TaskType
  | GreenTask (home : Option SchedHome)
  | SchedTask
deriving DecidableEq, Repr

/-- The external Scheduler collaborator, reduced to what the affinity checks
consume: its identity and whether it accepts unaffiliated work. -/
structure Scheduler where
  sched_id : Nat
  run_anything : Bool
  stack_pool : StackPool
deriving DecidableEq, Repr

/-- Opaque local heap handle. -/
inductive LocalHeap
  | mk
deriving DecidableEq, Repr

/-- Opaque garbage collector stub. -/
inductive GarbageCollector
  | mk
deriving DecidableEq, Repr

/-- Opaque stderr logger. -/
inductive StdErrLogger
  | mk
deriving DecidableEq, Repr

/-- The per-task local-data map, opaque except for presence. -/
abbrev LocalMap := List (Nat × Nat)

/-- LocalStorage is an optional local-data map, present only once used. -/
structure LocalStorage where
  map : Option LocalMap
deriving DecidableEq, Repr

/-- LocalStorage.take moves the map out, leaving the storage empty. -/
def LocalStorage.take (s : LocalStorage) : Option LocalMap × LocalStorage :=
  (s.map, { map := none })

/-- The Unwinder holds the single flag recording whether the task is
currently unwinding. -/
structure Unwinder where
  unwinding : Bool
deriving DecidableEq, Repr

/-- The state transition of Unwinder::begin_unwind: record unwinding. (The
source function then raises the sentinel token and never returns; that
control-flow aspect is modelled at the call sites, see `UnwindOutcome`.) -/
def Unwinder.begin_unwind (u : Unwinder) : Unwinder :=
  { u with unwinding := true }

/-- Unwinder::try specialized to the observable behaviour of the body: the
protected call returns in both cases, and unwinding is recorded exactly when
the body signalled failure through begin_unwind. -/
def Unwinder.try_run (u : Unwinder) (body_fails : Bool) : Unwinder :=
  if body_fails then u.begin_unwind else u

/-- Opaque membership token of a Taskgroup (task/spawn.rs is external; only
ownership transfer into Death::collect_failure is observable here). -/
structure Taskgroup where
  group_id : Nat
deriving DecidableEq, Repr

/-- What Death::collect_failure receives: the success flag and the task's
Taskgroup ownership. -/
structure CollectRecord where
  success : Bool
  group : Option Taskgroup
deriving DecidableEq, Repr

/-- Modelled from the spec: rt/kill.rs is not among the sources; Death is the
record through which the task's outcome is propagated. Only the delivery
into collect_failure is observable in this model; the linkage to peers is
opaque. -/
structure Death where
  collected : Option CollectRecord
deriving DecidableEq, Repr

/-- Death::new. -/
def Death.new : Death :=
  { collected := none }

/-- Modelled from the spec: new_child derives a child Death record linked to
the parent group; the linkage itself is opaque here. -/
def Death.new_child (_d : Death) : Death :=
  { collected := none }

/-- Death::collect_failure records the delivered outcome together with the
Taskgroup ownership handed in. -/
def Death.collect_failure (d : Death) (success : Bool) (group : Option Taskgroup) : Death :=
  { d with collected := some { success := success, group := group } }

/-- Opaque dynamic borrowck debugging record. -/
structure BorrowRecord where
  addr : Nat
deriving DecidableEq, Repr

/-- The Task aggregate, mirroring the source struct field for field. -/
structure Task where
  heap : LocalHeap
  gc : GarbageCollector
  storage : LocalStorage
  logger : StdErrLogger
  unwinder : Unwinder
  taskgroup : Option Taskgroup
  death : Death
  destroyed : Bool
  name : Option String
  coroutine : Option Coroutine
  sched : Option Scheduler
  task_type : TaskType
  borrow_list : Option (List BorrowRecord)
deriving DecidableEq, Repr

/-- The distinguishing tags of the fatal runtime exits reachable from the
embedded operations. -/
inductive RtAbort
  | typeErrorSchedTask
  | taskWithoutHome
  | unwindingAgain
  | notUtf8
  | destroyedAssert
  | noSchedHandle
deriving DecidableEq, Repr

/-- Task::new_sched_task: the scheduler's own bookkeeping task. Note that its
coroutine field is `some Coroutine.empty`, not `none`. -/
def Task.new_sched_task : Task :=
  { heap := LocalHeap.mk
    gc := GarbageCollector.mk
    storage := { map := none }
    logger := StdErrLogger.mk
    unwinder := { unwinding := false }
    taskgroup := none
    death := Death.new
    destroyed := false
    name := none
    coroutine := some Coroutine.empty
    sched := none
    task_type := TaskType.SchedTask
    borrow_list := none }

/-- Task::new_root_homed: a top-level GreenTask with the given affinity and a
fresh coroutine drawn from the pool. Returns the task and the updated pool. -/
def Task.new_root_homed (min_stack : Nat) (stack_pool : StackPool) (stack_size : Option Nat)
    (home : SchedHome) : Task × StackPool :=
  let pr := Coroutine.new min_stack stack_pool stack_size
  ({ heap := LocalHeap.mk
     gc := GarbageCollector.mk
     storage := { map := none }
     logger := StdErrLogger.mk
     unwinder := { unwinding := false }
     taskgroup := none
     death := Death.new
     destroyed := false
     name := none
     coroutine := some pr.1
     sched := none
     task_type := TaskType.GreenTask (some home)
     borrow_list := none }, pr.2)

/-- Task::new_child_homed: like new_root_homed but the Death record derives
from the parent. -/
def Task.new_child_homed (parent : Task) (min_stack : Nat) (stack_pool : StackPool)
    (stack_size : Option Nat) (home : SchedHome) : Task × StackPool :=
  let pr := Coroutine.new min_stack stack_pool stack_size
  ({ heap := LocalHeap.mk
     gc := GarbageCollector.mk
     storage := { map := none }
     logger := StdErrLogger.mk
     unwinder := { unwinding := false }
     taskgroup := none
     death := parent.death.new_child
     destroyed := false
     name := none
     coroutine := some pr.1
     sched := none
     task_type := TaskType.GreenTask (some home)
     borrow_list := none }, pr.2)

/-- Task::new_root delegates to new_root_homed with AnySched. -/
def Task.new_root (min_stack : Nat) (stack_pool : StackPool) (stack_size : Option Nat) :
    Task × StackPool :=
  Task.new_root_homed min_stack stack_pool stack_size SchedHome.AnySched

/-- Task::new_child delegates to new_child_homed with AnySched. -/
def Task.new_child (parent : Task) (min_stack : Nat) (stack_pool : StackPool)
    (stack_size : Option Nat) : Task × StackPool :=
  parent.new_child_homed min_stack stack_pool stack_size SchedHome.AnySched

/-- Task::give_home: on a GreenTask (assigned or not) the affinity is
overwritten with the new home; on a SchedTask it is a fatal type error. -/
def Task.give_home (t : Task) (new_home : SchedHome) : Except RtAbort Task :=
  match t.task_type with
  | TaskType.GreenTask _ =>
      Except.ok { t with task_type := TaskType.GreenTask (some new_home) }
  | TaskType.SchedTask => Except.error RtAbort.typeErrorSchedTask

/-- Task::take_unwrap_home: moves the affinity out of a GreenTask, leaving it
unassigned; a SchedTask is a fatal type error. The GreenTask-without-home arm
is Modelled from the spec: the source calls Option::take_unwrap (libstd
option.rs, not among the sources), which does not return a value on None, and
the spec classifies affinity operations on an unassigned GreenTask as fatal. -/
def Task.take_unwrap_home (t : Task) : Except RtAbort (SchedHome × Task) :=
  match t.task_type with
  | TaskType.GreenTask (some home) =>
      Except.ok (home, { t with task_type := TaskType.GreenTask none })
  | TaskType.GreenTask none => Except.error RtAbort.taskWithoutHome
  | TaskType.SchedTask => Except.error RtAbort.typeErrorSchedTask

/-- Task::is_home_no_tls: compares the pinned handle against the given
scheduler; AnySched is never home; an unassigned GreenTask or a SchedTask is
a fatal abort. -/
def Task.is_home_no_tls (t : Task) (sched : Scheduler) : Except RtAbort Bool :=
  match t.task_type with
  | TaskType.GreenTask (some SchedHome.AnySched) => Except.ok false
  | TaskType.GreenTask (some (SchedHome.Sched handle)) =>
      Except.ok (handle.sched_id == sched.sched_id)
  | TaskType.GreenTask none => Except.error RtAbort.taskWithoutHome
  | TaskType.SchedTask => Except.error RtAbort.typeErrorSchedTask

/-- Task::homed: true exactly for a pinned GreenTask; an unassigned GreenTask
or a SchedTask is a fatal abort. -/
def Task.homed (t : Task) : Except RtAbort Bool :=
  match t.task_type with
  | TaskType.GreenTask (some SchedHome.AnySched) => Except.ok false
  | TaskType.GreenTask (some (SchedHome.Sched _)) => Except.ok true
  | TaskType.GreenTask none => Except.error RtAbort.taskWithoutHome
  | TaskType.SchedTask => Except.error RtAbort.typeErrorSchedTask

/-- Task::on_appropriate_sched: reads the scheduler handle held by the task
(get_ref on a missing handle does not return a value, tagged noSchedHandle),
then decides by affinity: AnySched defers to the scheduler's run_anything
flag, a pinned task compares scheduler ids, and the remaining task states are
fatal aborts. -/
def Task.on_appropriate_sched (t : Task) : Except RtAbort Bool :=
  match t.sched with
  | none => Except.error RtAbort.noSchedHandle
  | some sched =>
    match t.task_type with
    | TaskType.GreenTask (some SchedHome.AnySched) => Except.ok sched.run_anything
    | TaskType.GreenTask (some (SchedHome.Sched handle)) =>
        Except.ok (handle.sched_id == sched.sched_id)
    | TaskType.GreenTask none => Except.error RtAbort.taskWithoutHome
    | TaskType.SchedTask => Except.error RtAbort.typeErrorSchedTask

/-- Drop for Task: rtassert!(self.destroyed); deallocating a task that is not
destroyed is a fatal invariant violation. -/
def Task.drop (t : Task) : Except RtAbort Unit :=
  if t.destroyed then Except.ok () else Except.error RtAbort.destroyedAssert

/-- The observable side effects of Task::run, in emission order. -/
inductive Event
  | bodyRun
  | storageTeardown
  | heapTeardown
  | clearBorrowList
  | collectFailure
  | setDestroyed
deriving DecidableEq, Repr

/-- borrowck::clear_task_borrow_list: clears the dynamic borrowck debugging
info of the task. -/
def clear_task_borrow_list (t : Task) : Task :=
  { t with borrow_list := none }

/-- The finally block inside Task::run: tear down LocalStorage first (it may
run user dtors), then destroy remaining boxes via cleanup::annihilate (opaque
heap teardown, observable only as its event). -/
def Task.run_finally (t : Task) : Task × List Event :=
  ({ t with storage := (t.storage.take).2 },
   [Event.storageTeardown, Event.heapTeardown])

/-- Task::run: the unwinder protects the body wrapped in the finally block;
afterwards the borrow list is cleared, the outcome (success iff not
unwinding) is delivered into Death::collect_failure together with the taken
Taskgroup, and destroyed is set. The function is total: run returns normally
to its caller whether or not the body failed. -/
def Task.run (t : Task) (body_fails : Bool) : Task × List Event :=
  let t0 := { t with unwinder := t.unwinder.try_run body_fails }
  let fin := t0.run_finally
  let t1 := clear_task_borrow_list fin.1
  let success := ! t1.unwinder.unwinding
  let t2 := { t1 with death := t1.death.collect_failure success t1.taskgroup,
                      taskgroup := none }
  let t3 := { t2 with destroyed := true }
  (t3, Event.bodyRun :: fin.2 ++
    [Event.clearBorrowList, Event.collectFailure, Event.setDestroyed])

/-- The outcome of the process-wide failure entry point: either a fatal abort
of the runtime, or the stack unwinds (control never returns normally) with
the updated task state at the try boundary. -/
inductive UnwindOutcome
  | abort (e : RtAbort)
  | unwound (t : Task)
deriving DecidableEq, Repr

/-- The free function begin_unwind (the entry point for compiler-generated
failure): a non-UTF-8 message or file is a fatal abort; failing while the
current task is already unwinding is a fatal double-fault abort; otherwise
Unwinder::begin_unwind records unwinding and raises the sentinel, so control
unwinds instead of returning. The logging of the message is an external side
effect with no task state, elided here. -/
def begin_unwind (msg_utf8 : Bool) (file_utf8 : Bool) (t : Task) : UnwindOutcome :=
  if msg_utf8 = false then UnwindOutcome.abort RtAbort.notUtf8
  else if file_utf8 = false then UnwindOutcome.abort RtAbort.notUtf8
  else if t.unwinder.unwinding then UnwindOutcome.abort RtAbort.unwindingAgain
  else UnwindOutcome.unwound { t with unwinder := t.unwinder.begin_unwind }

/- Sample values used by the concrete witnesses below. -/

/-- A concrete scheduler for witnesses. -/
def sample_sched : Scheduler :=
  { sched_id := 7, run_anything := true, stack_pool := { segments := [] } }

/-- A concrete scheduler handle pinned to sample_sched. -/
def sample_handle : SchedHandle :=
  { sched_id := 7 }

/-- A concrete root GreenTask with AnySched affinity. -/
def root_any_task : Task :=
  (Task.new_root_homed 16 { segments := [] } none SchedHome.AnySched).1

/-- root_any_task as it stands while executing under sample_sched (the
scheduler handle installed in the task). -/
def root_any_task_sched : Task :=
  { root_any_task with sched := some sample_sched }

/-- A task in the GreenTask-without-home state, as take_unwrap_home leaves it
behind. -/
def green_none_task : Task :=
  { root_any_task with task_type := TaskType.GreenTask none }

/-- A concrete pinned GreenTask executing under sample_sched. -/
def pinned_task : Task :=
  { (Task.new_root_homed 16 { segments := [] } none
      (SchedHome.Sched sample_handle)).1 with sched := some sample_sched }

/- Theorems settling the claims. -/

/-- C1: for every Task and every body, after Task::run returns the task's
destroyed flag is true, whether the body completed normally or signalled
failure. -/
theorem run_sets_destroyed (t : Task) (body_fails : Bool) :
    (t.run body_fails).1.destroyed = true := rfl

/-- C2: Task::run returns normally (it is a total function of the task state)
for a failing body just as for a succeeding one, and the outcome it delivers
into Death::collect_failure is success exactly when the Unwinder did not
record unwinding during the protected call, handed over together with the
task's Taskgroup ownership (which the task no longer holds afterwards). -/
theorem run_outcome_delivery (t : Task) (body_fails : Bool)
    (h : t.unwinder.unwinding = false) :
    (t.run body_fails).1.death.collected =
      some { success := ! body_fails, group := t.taskgroup } ∧
    (t.run body_fails).1.taskgroup = none := by
  cases body_fails <;>
    simp [Task.run, Task.run_finally, LocalStorage.take, clear_task_borrow_list,
      Death.collect_failure, Unwinder.try_run, Unwinder.begin_unwind, h]

/-- C2 witness: a freshly built task run with a failing body has failure
delivered into collect_failure. -/
theorem run_outcome_delivery_witness :
    Task.new_sched_task.unwinder.unwinding = false ∧
    (Task.new_sched_task.run true).1.death.collected =
      some { success := false, group := none } :=
  ⟨rfl, (run_outcome_delivery Task.new_sched_task true rfl).1⟩

/-- C3: in every call of Task::run, whether the body succeeds or fails, the
finalization events occur in the fixed order: LocalStorage teardown, then
heap teardown (cleanup::annihilate), then clearing the task borrow list, then
Death::collect_failure, and last setting destroyed. -/
theorem run_event_order (t : Task) (body_fails : Bool) :
    (t.run body_fails).2 =
      [Event.bodyRun, Event.storageTeardown, Event.heapTeardown,
       Event.clearBorrowList, Event.collectFailure, Event.setDestroyed] := rfl

/-- Helper: a segment found by take_from has at least the requested size. -/
theorem take_from_size_le (size : Nat) (l : List StackSegment) (seg : StackSegment)
    (rest : List StackSegment) (h : take_from size l = some (seg, rest)) :
    size ≤ seg.size := by
  induction l generalizing rest with
  | nil => simp [take_from] at h
  | cons a as ih =>
    rw [take_from] at h
    by_cases hle : size ≤ a.size
    · rw [if_pos hle] at h
      obtain ⟨rfl, rfl⟩ := by simpa using h
      exact hle
    · rw [if_neg hle] at h
      cases hrec : take_from size as with
      | none => rw [hrec] at h; simp at h
      | some pr =>
        rw [hrec] at h
        obtain ⟨rfl, rfl⟩ := by simpa using h
        exact ih pr.2 (by simpa using hrec)

/-- Helper: take_segment yields a segment of at least the requested size. -/
theorem take_segment_size_le (p : StackPool) (size : Nat) :
    size ≤ (p.take_segment size).1.size := by
  rw [StackPool.take_segment]
  cases h : take_from size p.segments with
  | none => simp
  | some pr =>
    simpa using take_from_size_le size p.segments pr.1 pr.2 (by simpa using h)

/-- C4 counterexample: with a runtime minimum of 4 and a pool holding one
recycled segment of size 5, Coroutine::new with no requested size obtains the
recycled segment, whose size 5 is not equal to the runtime minimum 4. -/
theorem coroutine_default_size_counterexample :
    (Coroutine.new 4 { segments := [{ size := 5 }] } none).1.current_stack_segment.size
        = 5 ∧
    ¬ (Coroutine.new 4 { segments := [{ size := 5 }] } none).1.current_stack_segment.size
        = 4 := by
  decide

/-- C4 amended: the segment of a Coroutine built with requested size S has
size at least S, and with no requested size at least the runtime minimum;
moreover, from a pool with no recycled segment and no requested size the
segment size equals the runtime minimum exactly. -/
theorem coroutine_segment_size (min_stack : Nat) (p : StackPool) (stack_size : Option Nat) :
    stack_size.getD min_stack ≤
      (Coroutine.new min_stack p stack_size).1.current_stack_segment.size ∧
    (Coroutine.new min_stack { segments := [] } none).1.current_stack_segment.size
      = min_stack := by
  constructor
  · cases stack_size with
    | none => simpa [Coroutine.new] using take_segment_size_le p min_stack
    | some s => simpa [Coroutine.new] using take_segment_size_le p s
  · rfl

/-- C5 counterexample: give_home invoked on a GreenTask whose affinity has
not yet been assigned does not take the fatal abort path; it returns the task
with the affinity assigned. -/
theorem give_home_green_none_counterexample :
    green_none_task.give_home SchedHome.AnySched =
      Except.ok { green_none_task with
                    task_type := TaskType.GreenTask (some SchedHome.AnySched) } := rfl

/-- C5 amended: on a SchedTask every affinity operation (give_home,
take_unwrap_home, homed, is_home_no_tls, on_appropriate_sched) takes the
fatal abort path; on a GreenTask with unassigned affinity the four reading
operations are fatal, but give_home succeeds and assigns the affinity.
The on_appropriate_sched conjuncts presume the scheduler handle is installed
in the task, as it is while the task executes. -/
theorem affinity_ops_fatal (t : Task) (home : SchedHome) (s : Scheduler) :
    (t.task_type = TaskType.SchedTask →
      t.give_home home = Except.error RtAbort.typeErrorSchedTask ∧
      t.take_unwrap_home = Except.error RtAbort.typeErrorSchedTask ∧
      t.homed = Except.error RtAbort.typeErrorSchedTask ∧
      t.is_home_no_tls s = Except.error RtAbort.typeErrorSchedTask ∧
      { t with sched := some s }.on_appropriate_sched
        = Except.error RtAbort.typeErrorSchedTask) ∧
    (t.task_type = TaskType.GreenTask none →
      t.give_home home =
        Except.ok { t with task_type := TaskType.GreenTask (some home) } ∧
      t.take_unwrap_home = Except.error RtAbort.taskWithoutHome ∧
      t.homed = Except.error RtAbort.taskWithoutHome ∧
      t.is_home_no_tls s = Except.error RtAbort.taskWithoutHome ∧
      { t with sched := some s }.on_appropriate_sched
        = Except.error RtAbort.taskWithoutHome) := by
  constructor <;> intro h <;>
    simp [Task.give_home, Task.take_unwrap_home, Task.homed, Task.is_home_no_tls,
      Task.on_appropriate_sched, h]

/-- C5 witness: the fatal paths at a concrete SchedTask and at a concrete
unassigned GreenTask. -/
theorem affinity_ops_fatal_witness :
    Task.new_sched_task.task_type = TaskType.SchedTask ∧
    Task.new_sched_task.homed = Except.error RtAbort.typeErrorSchedTask ∧
    green_none_task.task_type = TaskType.GreenTask none ∧
    green_none_task.take_unwrap_home = Except.error RtAbort.taskWithoutHome :=
  ⟨rfl,
   ((affinity_ops_fatal Task.new_sched_task SchedHome.AnySched sample_sched).1
       rfl).2.2.1,
   rfl,
   ((affinity_ops_fatal green_none_task SchedHome.AnySched sample_sched).2
       rfl).2.1⟩

/-- C6: for a GreenTask with assigned affinity, homed is false exactly for
AnySched and true exactly for a pinned scheduler, and on_appropriate_sched
returns true precisely when either the task is pinned to a handle whose id
equals the id of the scheduler currently executing it, or the task has
AnySched affinity and that scheduler accepts unaffiliated work. -/
theorem green_task_affinity_checks (t : Task) (home : SchedHome) (s : Scheduler)
    (htype : t.task_type = TaskType.GreenTask (some home))
    (hs : t.sched = some s) :
    (t.homed = Except.ok (match home with
        | SchedHome.AnySched => false
        | SchedHome.Sched _ => true)) ∧
    (t.on_appropriate_sched = Except.ok true ↔
      (∃ handle, home = SchedHome.Sched handle ∧ handle.sched_id = s.sched_id) ∨
      (home = SchedHome.AnySched ∧ s.run_anything = true)) := by
  cases home with
  | AnySched =>
      simp [Task.homed, Task.on_appropriate_sched, htype, hs]
  | Sched handle =>
      simp [Task.homed, Task.on_appropriate_sched, htype, hs]

/-- C6 witness: the concrete pinned task executing on its own scheduler is
homed and on the appropriate scheduler. -/
theorem green_task_affinity_checks_witness :
    pinned_task.task_type = TaskType.GreenTask (some (SchedHome.Sched sample_handle)) ∧
    pinned_task.sched = some sample_sched ∧
    pinned_task.homed = Except.ok true ∧
    pinned_task.on_appropriate_sched = Except.ok true := by
  refine ⟨rfl, rfl, ?_, ?_⟩
  · exact (green_task_affinity_checks pinned_task (SchedHome.Sched sample_handle)
      sample_sched rfl rfl).1
  · exact (green_task_affinity_checks pinned_task (SchedHome.Sched sample_handle)
      sample_sched rfl rfl).2.mpr (Or.inl ⟨sample_handle, rfl, rfl⟩)

/-- C7: dropping a Task with destroyed set succeeds, and dropping a
non-destroyed Task hits the fatal rtassert. -/
theorem task_drop_assert (t : Task) :
    (t.destroyed = true → t.drop = Except.ok ()) ∧
    (t.destroyed = false → t.drop = Except.error RtAbort.destroyedAssert) := by
  constructor <;> intro h <;> simp [Task.drop, h]

/-- C7 witness: a freshly built, not yet run task is rejected by drop. -/
theorem task_drop_assert_witness :
    Task.new_sched_task.destroyed = false ∧
    Task.new_sched_task.drop = Except.error RtAbort.destroyedAssert :=
  ⟨rfl, (task_drop_assert Task.new_sched_task).2 rfl⟩

/-- C8: a failure signal arriving at the process-wide entry point (with the
UTF-8 message and file the interface prescribes) aborts the runtime with the
double-fault abort when the current task is already unwinding; otherwise it
reaches Unwinder::begin_unwind, which records unwinding, and control unwinds
rather than returning to the caller. -/
theorem begin_unwind_entry (t : Task) :
    (t.unwinder.unwinding = true →
      begin_unwind true true t = UnwindOutcome.abort RtAbort.unwindingAgain) ∧
    (t.unwinder.unwinding = false →
      begin_unwind true true t =
        UnwindOutcome.unwound { t with unwinder := { unwinding := true } }) := by
  constructor <;> intro h <;>
    simp [begin_unwind, Unwinder.begin_unwind, h]

/-- C8 witness: a first failure signal in a fresh task unwinds with the flag
set; a second signal on the resulting state is the fatal double fault. -/
theorem begin_unwind_entry_witness :
    Task.new_sched_task.unwinder.unwinding = false ∧
    begin_unwind true true Task.new_sched_task =
      UnwindOutcome.unwound
        { Task.new_sched_task with unwinder := { unwinding := true } } ∧
    begin_unwind true true
        { Task.new_sched_task with unwinder := { unwinding := true } } =
      UnwindOutcome.abort RtAbort.unwindingAgain :=
  ⟨rfl,
   (begin_unwind_entry Task.new_sched_task).2 rfl,
   (begin_unwind_entry
       { Task.new_sched_task with unwinder := { unwinding := true } }).1 rfl⟩

/-- C9 counterexample: the SchedTask built by new_sched_task does not have an
absent coroutine; its coroutine field holds the empty placeholder
Coroutine. -/
theorem sched_task_coroutine_counterexample :
    Task.new_sched_task.coroutine = some Coroutine.empty ∧
    ¬ Task.new_sched_task.coroutine = none := by
  decide

/-- C9 amended: every constructor produces a task whose coroutine field is
present; new_sched_task holds the zero-size placeholder coroutine, and every
GreenTask constructor holds the coroutine freshly built from the pool. -/
theorem coroutine_presence (parent : Task) (min_stack : Nat) (p : StackPool)
    (stack_size : Option Nat) (home : SchedHome) :
    Task.new_sched_task.coroutine = some Coroutine.empty ∧
    Coroutine.empty.current_stack_segment.size = 0 ∧
    (Task.new_root_homed min_stack p stack_size home).1.coroutine =
      some (Coroutine.new min_stack p stack_size).1 ∧
    (parent.new_child_homed min_stack p stack_size home).1.coroutine =
      some (Coroutine.new min_stack p stack_size).1 ∧
    (Task.new_root min_stack p stack_size).1.coroutine =
      some (Coroutine.new min_stack p stack_size).1 ∧
    (parent.new_child min_stack p stack_size).1.coroutine =
      some (Coroutine.new min_stack p stack_size).1 :=
  ⟨rfl, rfl, rfl, rfl, rfl, rfl⟩

/-- C10: take_unwrap_home on a GreenTask with assigned affinity returns that
affinity and leaves the task with GreenTask none, so that each subsequent
affinity read (homed, is_home_no_tls, on_appropriate_sched with the scheduler
handle still installed, or another take_unwrap_home) hits the fatal
task-without-home path. -/
theorem take_unwrap_home_consumes (t : Task) (home : SchedHome) (s : Scheduler)
    (htype : t.task_type = TaskType.GreenTask (some home))
    (hs : t.sched = some s) :
    t.take_unwrap_home =
      Except.ok (home, { t with task_type := TaskType.GreenTask none }) ∧
    ({ t with task_type := TaskType.GreenTask none }).homed
      = Except.error RtAbort.taskWithoutHome ∧
    ({ t with task_type := TaskType.GreenTask none }).is_home_no_tls s
      = Except.error RtAbort.taskWithoutHome ∧
    ({ t with task_type := TaskType.GreenTask none }).on_appropriate_sched
      = Except.error RtAbort.taskWithoutHome ∧
    ({ t with task_type := TaskType.GreenTask none }).take_unwrap_home
      = Except.error RtAbort.taskWithoutHome := by
  refine ⟨?_, ?_, ?_, ?_, ?_⟩ <;>
    simp [Task.take_unwrap_home, Task.homed, Task.is_home_no_tls,
      Task.on_appropriate_sched, htype, hs]

/-- C10 witness: taking the home out of the concrete AnySched root task (with
its scheduler handle installed) leaves a task on which homed is the fatal
task-without-home path. -/
theorem take_unwrap_home_consumes_witness :
    root_any_task_sched.task_type = TaskType.GreenTask (some SchedHome.AnySched) ∧
    root_any_task_sched.sched = some sample_sched ∧
    root_any_task_sched.take_unwrap_home =
      Except.ok (SchedHome.AnySched,
        { root_any_task_sched with task_type := TaskType.GreenTask none }) ∧
    ({ root_any_task_sched with
        task_type := TaskType.GreenTask none }).homed
      = Except.error RtAbort.taskWithoutHome :=
  ⟨rfl, rfl,
   (take_unwrap_home_consumes root_any_task_sched SchedHome.AnySched sample_sched
       rfl rfl).1,
   (take_unwrap_home_consumes root_any_task_sched SchedHome.AnySched sample_sched
       rfl rfl).2.1⟩

end RustRt
